import Mathlib

/-!
Verification of the `WebBlockStore` block-store adapter in
`src/private_forest/private_forest_tests2.rs` of `hhio618/wnfs-utils`.

The Rust code is a caching HTTP-backed block fetcher:
- a process-wide `MEMORY_STORE : Mutex<HashMap<String, Vec<u8>>>` cache,
  modelled here as an explicit state value threaded through each call;
- `WebBlockStore` holding a gateway URL and a codec tag;
- `cid_to_string`, which calls the external `libipld` parser
  (`Cid::try_from(cid).unwrap().to_string()`) — the `.unwrap()` panics on
  malformed bytes, modelled as a distinct `panicked` outcome;
- `get_block`, which canonicalizes the CID, consults the cache, and on a
  miss performs a blocking `reqwest` GET, caches the body and returns it;
- `put_block`, which canonicalizes the CID and writes directly to the cache.

The CID parser/formatter is an external library (out of scope per the
repository layering), so its parse-and-format composite is a parameter
`parse : Bytes -> Option String`; `none` is a parse failure (which the Rust
code unwraps, i.e. panics on). The network is an oracle
`net : Request -> HttpOutcome` mapping the single issued request to either a
transport-level failure (`reqwest` `send()` / `bytes()` returning `Err`, which
the `?` operator propagates) or an HTTP response with a status code and body.
Note that `reqwest`'s `send()` does NOT fail on a non-2xx HTTP status: the
source never calls `error_for_status`, so a response with any status code
reaches the `bytes()?` path and its body is treated as the block payload.
-/

/-- Raw byte sequences (`Vec<u8>`), as lists of byte values. -/
abbrev Bytes := List Nat

/-- The process-wide memory store, a map from canonical CID string to bytes.
Modelled as an association list with first-match lookup; insertion conses,
which gives `HashMap::insert` overwrite semantics observationally. -/
abbrev Cache := List (String × Bytes)

namespace Cache

/-- `HashMap::get`: first entry whose key matches. -/
def get (c : Cache) (k : String) : Option Bytes :=
  match c with
  | [] => none
  | (k0, v) :: rest => if k0 = k then some v else get rest k

/-- `HashMap::insert`: the new binding shadows any previous one. -/
def insert (c : Cache) (k : String) (v : Bytes) : Cache :=
  (k, v) :: c

@[simp] theorem get_nil (k : String) : get [] k = none := rfl

@[simp] theorem get_insert_self (c : Cache) (k : String) (v : Bytes) :
    get (insert c k v) k = some v := by
  simp [get, insert]

theorem get_insert_ne (c : Cache) (k k1 : String) (v : Bytes) (h : k1 ≠ k) :
    get (insert c k1 v) k = get c k := by
  simp [get, insert, h]

end Cache

/-- The `WebBlockStore` struct: gateway base URL and advisory codec tag. -/
structure WebBlockStore where
  gateway_url : String
  codec : Nat
deriving DecidableEq, Repr

/-- The HTTP request issued by `get_block`: method, URL, the two headers set
in the source, and the client-wide timeout in seconds. -/
structure Request where
  method : String
  url : String
  accept : String
  contentType : String
  timeoutSecs : Nat
deriving DecidableEq, Repr

/-- What the network does with the single request `get_block` issues:
either a transport-level failure (connect error, timeout, read error — the
cases where `send()?` or `bytes()?` return `Err`), or an HTTP response
carrying a status code and a body. -/
inductive HttpOutcome where
  | transportError
  | response (status : Nat) (body : Bytes)
deriving DecidableEq, Repr

/-- Outcome of a store call: `ok v` for `Ok(v)`, `fetchFailed` for the
`anyhow` error propagated from a `reqwest` transport failure, and
`panicked` for the `unwrap()` panic on a malformed CID. -/
inductive CallResult (α : Type) where
  | ok : α → CallResult α
  | fetchFailed : CallResult α
  | panicked : CallResult α
deriving DecidableEq, Repr

/-- `WebBlockStore::cid_to_string`: `Cid::try_from(cid).unwrap().to_string()`.
The external parse-and-format composite is the parameter `parse`; `none`
means `Cid::try_from` returned `Err`, which the source `unwrap`s (panics). -/
def cid_to_string (parse : Bytes → Option String) (cid : Bytes) : Option String :=
  parse cid

/-- The request built in `get_block`:
URL `self.gateway_url ++ "/" ++ cid_string ++ "?raw"`, a GET with headers
`Accept: */*` and `Content-Type: application/octet-stream`, on a client
built with a 60-second overall timeout. -/
def buildRequest (store : WebBlockStore) (cidString : String) : Request :=
  { method := "GET"
  , url := store.gateway_url ++ "/" ++ cidString ++ "?raw"
  , accept := "*/*"
  , contentType := "application/octet-stream"
  , timeoutSecs := 60 }

/-- `WebBlockStore::get_block`. Returns the call result, the cache after the
call, and the list of network requests issued during the call.

Faithful to the source: canonicalize (panic on parse failure); on a cache
hit return the clone without touching the network; on a miss build the
client (builder with timeout; its `build()?` only fails on TLS backend
initialisation, modelled as infallible), issue the GET, propagate a
transport failure with the cache untouched, and otherwise — for ANY HTTP
status, since `error_for_status` is never called — convert the body to a
vector, insert it into the cache under the canonical string, and return it. -/
def get_block (store : WebBlockStore) (parse : Bytes → Option String)
    (net : Request → HttpOutcome) (cache : Cache) (cid : Bytes) :
    CallResult Bytes × Cache × List Request :=
  match cid_to_string parse cid with
  | none => (.panicked, cache, [])
  | some cidString =>
    match cache.get cidString with
    | some data => (.ok data, cache, [])
    | none =>
      let req := buildRequest store cidString
      match net req with
      | .transportError => (.fetchFailed, cache, [req])
      | .response _status body =>
          (.ok body, cache.insert cidString body, [req])

/-- `WebBlockStore::put_block`: canonicalize (panic on parse failure) and
insert the bytes into the memory store under the canonical string. No
network interaction of any kind. -/
def put_block (store : WebBlockStore) (parse : Bytes → Option String)
    (cache : Cache) (cid : Bytes) (bytes : Bytes) :
    CallResult Unit × Cache × List Request :=
  match cid_to_string parse cid with
  | none => (.panicked, cache, [])
  | some cidString => (.ok (), cache.insert cidString bytes, [])

/-- Concrete stand-in for the external `libipld` CID parse-and-format used
only to instantiate the parameterized theorems at concrete inputs. Like the
real parser it rejects the empty byte string; on other inputs it produces a
deterministic canonical string. -/
def demoParse (cid : Bytes) : Option String :=
  match cid with
  | [] => none
  | bs => some (String.intercalate "." (bs.map toString))

/-- A sample store configuration used in witnesses. -/
def demoStore : WebBlockStore :=
  { gateway_url := "https://ipfs.cloud.fx.land/gateway", codec := 113 }

/-! ## Claim C1

The claim says a malformed CID makes `get_block`/`put_block` return an
`InvalidIdentifier` error rather than panic. The source has no such error
path: `cid_to_string` is `Cid::try_from(cid).unwrap().to_string()`, so a
parse failure panics. The no-cache-mutation and no-network parts hold. -/

/-- C1 counterexample: on the empty byte string (not a well-formed CID —
the real parser rejects empty input) both calls end in the unwrap panic,
not in any returned error value. -/
theorem C1_counterexample :
    (get_block demoStore demoParse (fun _ => HttpOutcome.transportError) [] []).1
      = CallResult.panicked
    ∧ (put_block demoStore demoParse [] [] [1]).1 = CallResult.panicked := by
  constructor <;> rfl

/-- C1 (amended): for every byte sequence that does not parse as a
well-formed CID, `get_block` and `put_block` panic (the source unwraps the
CID parse result); no cache mutation and no network call occur. -/
theorem C1_invalid_cid_panics (store : WebBlockStore)
    (parse : Bytes → Option String) (net : Request → HttpOutcome)
    (cache : Cache) (cid b : Bytes) (h : parse cid = none) :
    get_block store parse net cache cid = (.panicked, cache, [])
    ∧ put_block store parse cache cid b = (.panicked, cache, []) := by
  constructor <;> simp [get_block, put_block, cid_to_string, h]

/-- C1 witness: the amended claim at the empty byte string. -/
theorem C1_invalid_cid_panics_witness :
    get_block demoStore demoParse (fun _ => HttpOutcome.transportError) [] []
      = (.panicked, [], [])
    ∧ put_block demoStore demoParse [] [] [7] = (.panicked, [], []) :=
  C1_invalid_cid_panics demoStore demoParse
    (fun _ => HttpOutcome.transportError) [] [] [7] rfl

/-! ## Claim C2

The claim says a non-2xx gateway status makes `get_block` fail with
`FetchFailed` and the body is neither returned nor cached. The source never
calls `error_for_status`: `send()?` only fails on transport errors, so the
body of a response with any status code is returned as the block and
written into the cache. -/

/-- C2 counterexample: a gateway answering 404 with body `[9, 9]` makes
`get_block` return `Ok([9, 9])` and cache that body — not `FetchFailed`. -/
theorem C2_counterexample :
    get_block demoStore demoParse (fun _ => HttpOutcome.response 404 [9, 9])
        [] [1, 2, 3]
      = (CallResult.ok [9, 9], [("1.2.3", [9, 9])],
         [buildRequest demoStore "1.2.3"]) := by
  rfl

/-- C2 (amended): on a cache miss, a response with ANY HTTP status — 2xx or
not — has its body returned to the caller and inserted into the cache; the
status code is never inspected. Only a transport-level failure produces the
fetch-failed error. -/
theorem C2_status_ignored (store : WebBlockStore)
    (parse : Bytes → Option String) (net : Request → HttpOutcome)
    (cache : Cache) (cid : Bytes) (s : String) (status : Nat) (body : Bytes)
    (hp : parse cid = some s) (hm : cache.get s = none)
    (hn : net (buildRequest store s) = HttpOutcome.response status body) :
    get_block store parse net cache cid
      = (.ok body, cache.insert s body, [buildRequest store s]) := by
  simp [get_block, cid_to_string, hp, hm, hn]

/-- C2 witness: the amended claim at a 404 response. -/
theorem C2_status_ignored_witness :
    get_block demoStore demoParse (fun _ => HttpOutcome.response 404 [9])
        [] [4, 5]
      = (.ok [9], Cache.insert [] "4.5" [9], [buildRequest demoStore "4.5"]) :=
  C2_status_ignored demoStore demoParse (fun _ => HttpOutcome.response 404 [9])
    [] [4, 5] "4.5" 404 [9] rfl rfl rfl

/-! ## Helper lemmas: the four branches of `get_block` -/

/-- On a parse failure, `get_block` panics with no side effect. -/
theorem get_block_parse_fail (store : WebBlockStore)
    (parse : Bytes → Option String) (net : Request → HttpOutcome)
    (cache : Cache) (cid : Bytes) (hp : parse cid = none) :
    get_block store parse net cache cid = (.panicked, cache, []) := by
  simp [get_block, cid_to_string, hp]

/-- On a cache hit, `get_block` returns the stored clone with no fetch. -/
theorem get_block_hit (store : WebBlockStore)
    (parse : Bytes → Option String) (net : Request → HttpOutcome)
    (cache : Cache) (cid d : Bytes) (s : String)
    (hp : parse cid = some s) (hm : cache.get s = some d) :
    get_block store parse net cache cid = (.ok d, cache, []) := by
  simp [get_block, cid_to_string, hp, hm]

/-- On a cache miss answered with a transport failure, `get_block` returns
the fetch error and leaves the cache untouched. -/
theorem get_block_miss_transport (store : WebBlockStore)
    (parse : Bytes → Option String) (net : Request → HttpOutcome)
    (cache : Cache) (cid : Bytes) (s : String)
    (hp : parse cid = some s) (hm : cache.get s = none)
    (hn : net (buildRequest store s) = HttpOutcome.transportError) :
    get_block store parse net cache cid
      = (.fetchFailed, cache, [buildRequest store s]) := by
  simp [get_block, cid_to_string, hp, hm, hn]

/-- On a cache miss answered with an HTTP response of any status,
`get_block` caches and returns the body. -/
theorem get_block_miss_response (store : WebBlockStore)
    (parse : Bytes → Option String) (net : Request → HttpOutcome)
    (cache : Cache) (cid : Bytes) (s : String) (status : Nat) (body : Bytes)
    (hp : parse cid = some s) (hm : cache.get s = none)
    (hn : net (buildRequest store s) = HttpOutcome.response status body) :
    get_block store parse net cache cid
      = (.ok body, cache.insert s body, [buildRequest store s]) := by
  simp [get_block, cid_to_string, hp, hm, hn]

/-! ## Claim C3 -/

/-- C3: once a `get_block` call has succeeded (populating the cache entry
for the canonical string), a subsequent `get_block` on the same CID — under
any network behaviour — performs no remote fetch, leaves the cache
unchanged, and returns the same bytes. -/
theorem C3_cache_precedence (store : WebBlockStore)
    (parse : Bytes → Option String) (net net2 : Request → HttpOutcome)
    (cache cache2 : Cache) (cid data : Bytes) (reqs : List Request)
    (h : get_block store parse net cache cid = (.ok data, cache2, reqs)) :
    get_block store parse net2 cache2 cid = (.ok data, cache2, []) := by
  cases hp : parse cid with
  | none =>
    rw [get_block_parse_fail store parse net cache cid hp] at h
    simp at h
  | some s =>
    cases hm : cache.get s with
    | some d =>
      rw [get_block_hit store parse net cache cid d s hp hm] at h
      simp only [Prod.mk.injEq, CallResult.ok.injEq] at h
      obtain ⟨rfl, rfl, rfl⟩ := h
      exact get_block_hit store parse net2 cache cid d s hp hm
    | none =>
      cases hn : net (buildRequest store s) with
      | transportError =>
        rw [get_block_miss_transport store parse net cache cid s hp hm hn] at h
        simp at h
      | response st body =>
        rw [get_block_miss_response store parse net cache cid s st body hp hm hn] at h
        simp only [Prod.mk.injEq, CallResult.ok.injEq] at h
        obtain ⟨rfl, rfl, rfl⟩ := h
        exact get_block_hit store parse net2 (cache.insert s body) cid body s hp
          (Cache.get_insert_self cache s body)

/-- C3 witness: after a fetch populates the cache, the second call is a
pure cache hit even against a network that would fail. -/
theorem C3_cache_precedence_witness :
    get_block demoStore demoParse (fun _ => HttpOutcome.transportError)
        [("1.2.3", [5])] [1, 2, 3]
      = (.ok [5], [("1.2.3", [5])], []) :=
  C3_cache_precedence demoStore demoParse
    (fun _ => HttpOutcome.response 200 [5])
    (fun _ => HttpOutcome.transportError)
    [] [("1.2.3", [5])] [1, 2, 3] [5]
    [buildRequest demoStore "1.2.3"] rfl

/-! ## Claim C4 -/

/-- C4: for a valid CID, `put_block(cid, b)` followed by `get_block(cid)`
returns exactly `b`, served from the cache with no network request and no
further cache change. -/
theorem C4_put_then_get (store : WebBlockStore)
    (parse : Bytes → Option String) (net : Request → HttpOutcome)
    (cache : Cache) (cid b : Bytes) (s : String)
    (hp : parse cid = some s) :
    get_block store parse net ((put_block store parse cache cid b).2.1) cid
      = (.ok b, (put_block store parse cache cid b).2.1, []) := by
  simp [put_block, get_block, cid_to_string, hp, Cache.get_insert_self]

/-- C4 witness: put then get at a concrete CID and payload. -/
theorem C4_put_then_get_witness :
    get_block demoStore demoParse (fun _ => HttpOutcome.transportError)
        ((put_block demoStore demoParse [] [1, 2, 3] [7, 8]).2.1) [1, 2, 3]
      = (.ok [7, 8], (put_block demoStore demoParse [] [1, 2, 3] [7, 8]).2.1, []) :=
  C4_put_then_get demoStore demoParse (fun _ => HttpOutcome.transportError)
    [] [1, 2, 3] [7, 8] "1.2.3" rfl

/-! ## Claim C5 -/

/-- C5: if the remote fetch inside `get_block` fails at the transport level
(connect error, timeout, read error), the call returns the fetch-failed
error and the cache is exactly as before — no entry inserted or modified. -/
theorem C5_fetch_failure (store : WebBlockStore)
    (parse : Bytes → Option String) (net : Request → HttpOutcome)
    (cache : Cache) (cid : Bytes) (s : String)
    (hp : parse cid = some s) (hm : cache.get s = none)
    (hn : net (buildRequest store s) = HttpOutcome.transportError) :
    get_block store parse net cache cid
      = (.fetchFailed, cache, [buildRequest store s]) := by
  simp [get_block, cid_to_string, hp, hm, hn]

/-- C5 witness: a timing-out gateway on an empty cache. -/
theorem C5_fetch_failure_witness :
    get_block demoStore demoParse (fun _ => HttpOutcome.transportError)
        [] [1, 2, 3]
      = (.fetchFailed, [], [buildRequest demoStore "1.2.3"]) :=
  C5_fetch_failure demoStore demoParse (fun _ => HttpOutcome.transportError)
    [] [1, 2, 3] "1.2.3" rfl rfl rfl

/-! ## Claim C6

The claim says an overwrite of an existing entry is permitted only with
identical content. `put_block` performs no such check: it unconditionally
inserts, so a second put with different bytes under the same key silently
replaces the entry. -/

/-- C6 counterexample: `put_block(c, [1])` then `put_block(c, [2])` leaves
the entry for the key holding `[2]`, different bytes from the `[1]` that
was stored — the overwrite with non-identical content succeeds silently. -/
theorem C6_counterexample :
    (((put_block demoStore demoParse
          ((put_block demoStore demoParse [] [1, 2, 3] [1]).2.1)
          [1, 2, 3] [2]).2.1).get "1.2.3" = some [2]
      ∧ ((put_block demoStore demoParse [] [1, 2, 3] [1]).2.1).get "1.2.3"
          = some [1])
    ∧ ([2] : Bytes) ≠ [1] := by
  exact ⟨⟨rfl, rfl⟩, by decide⟩

/-- C6 (amended): `put_block` unconditionally overwrites the cache entry
for the canonical key with the supplied bytes; the store makes no
comparison with previously stored content, so non-corruption of existing
entries relies entirely on callers addressing blocks by content. -/
theorem C6_put_overwrites (store : WebBlockStore)
    (parse : Bytes → Option String) (cache : Cache) (cid b : Bytes)
    (s : String) (hp : parse cid = some s) :
    ((put_block store parse cache cid b).2.1).get s = some b := by
  simp [put_block, cid_to_string, hp, Cache.get_insert_self]

/-- C6 witness: overwriting an existing different-content entry. -/
theorem C6_put_overwrites_witness :
    ((put_block demoStore demoParse [("1.2.3", [1])] [1, 2, 3] [2]).2.1).get "1.2.3"
      = some [2] :=
  C6_put_overwrites demoStore demoParse [("1.2.3", [1])] [1, 2, 3] [2] "1.2.3" rfl

/-! ## Claim C7 -/

/-- C7: whenever the remote fetch happens (valid CID, cache miss), exactly
one request is issued, and it is a GET to
`gateway_url ++ "/" ++ cidString ++ "?raw"` with headers `Accept: */*` and
`Content-Type: application/octet-stream` on a client with a 60-second
overall timeout — whatever the network then answers. -/
theorem C7_request_shape (store : WebBlockStore)
    (parse : Bytes → Option String) (net : Request → HttpOutcome)
    (cache : Cache) (cid : Bytes) (s : String)
    (hp : parse cid = some s) (hm : cache.get s = none) :
    (get_block store parse net cache cid).2.2
      = [{ method := "GET"
         , url := store.gateway_url ++ "/" ++ s ++ "?raw"
         , accept := "*/*"
         , contentType := "application/octet-stream"
         , timeoutSecs := 60 }] := by
  cases hn : net (buildRequest store s) with
  | transportError =>
    rw [get_block_miss_transport store parse net cache cid s hp hm hn]
    rfl
  | response st body =>
    rw [get_block_miss_response store parse net cache cid s st body hp hm hn]
    rfl

/-- C7 witness: the issued request at a concrete store and CID. -/
theorem C7_request_shape_witness :
    (get_block demoStore demoParse (fun _ => HttpOutcome.response 200 [5])
        [] [1, 2, 3]).2.2
      = [{ method := "GET"
         , url := "https://ipfs.cloud.fx.land/gateway" ++ "/" ++ "1.2.3" ++ "?raw"
         , accept := "*/*"
         , contentType := "application/octet-stream"
         , timeoutSecs := 60 }] :=
  C7_request_shape demoStore demoParse (fun _ => HttpOutcome.response 200 [5])
    [] [1, 2, 3] "1.2.3" rfl rfl

/-! ## Claim C8 -/

/-- C8: for a valid CID, `put_block` issues no network request, returns
success, and its only state effect is binding the bytes to the canonical
string in the cache. -/
theorem C8_put_local_only (store : WebBlockStore)
    (parse : Bytes → Option String) (cache : Cache) (cid b : Bytes)
    (s : String) (hp : parse cid = some s) :
    put_block store parse cache cid b = (.ok (), cache.insert s b, []) := by
  simp [put_block, cid_to_string, hp]

/-- C8 witness: a concrete put. -/
theorem C8_put_local_only_witness :
    put_block demoStore demoParse [] [1, 2, 3] [7]
      = (.ok (), Cache.insert [] "1.2.3" [7], []) :=
  C8_put_local_only demoStore demoParse [] [1, 2, 3] [7] "1.2.3" rfl

/-! ## Claim C9 -/

/-- C9: the codec construction parameter is advisory only — two stores that
differ only in their codec value have identical `get_block` and `put_block`
behaviour (result, cache effect, and requests issued) on all inputs. -/
theorem C9_codec_advisory (g : String) (k1 k2 : Nat)
    (parse : Bytes → Option String) (net : Request → HttpOutcome)
    (cache : Cache) (cid b : Bytes) :
    get_block { gateway_url := g, codec := k1 } parse net cache cid
      = get_block { gateway_url := g, codec := k2 } parse net cache cid
    ∧ put_block { gateway_url := g, codec := k1 } parse cache cid b
      = put_block { gateway_url := g, codec := k2 } parse cache cid b := by
  constructor <;> rfl

/-! ## Claim C10 -/

/-- C10: frame property — for a valid CID with canonical string `s`, a
`get_block` or `put_block` call changes at most the cache entry for `s`:
the lookup of every other key is the same before and after the call. -/
theorem C10_frame (store : WebBlockStore)
    (parse : Bytes → Option String) (net : Request → HttpOutcome)
    (cache : Cache) (cid b : Bytes) (s k : String)
    (hp : parse cid = some s) (hk : k ≠ s) :
    ((get_block store parse net cache cid).2.1).get k = cache.get k
    ∧ ((put_block store parse cache cid b).2.1).get k = cache.get k := by
  constructor
  · cases hm : cache.get s with
    | some d => rw [get_block_hit store parse net cache cid d s hp hm]
    | none =>
      cases hn : net (buildRequest store s) with
      | transportError =>
        rw [get_block_miss_transport store parse net cache cid s hp hm hn]
      | response st body =>
        rw [get_block_miss_response store parse net cache cid s st body hp hm hn]
        exact Cache.get_insert_ne cache k s body (Ne.symm hk)
  · simp only [put_block, cid_to_string, hp]
    exact Cache.get_insert_ne cache k s b (Ne.symm hk)

/-- C10 witness: a get that fetches and a put, both leaving a distinct
pre-existing entry untouched. -/
theorem C10_frame_witness :
    ((get_block demoStore demoParse (fun _ => HttpOutcome.response 200 [5])
        [("9", [3])] [1, 2, 3]).2.1).get "9" = Cache.get [("9", [3])] "9"
    ∧ ((put_block demoStore demoParse [("9", [3])] [1, 2, 3] [7]).2.1).get "9"
        = Cache.get [("9", [3])] "9" :=
  C10_frame demoStore demoParse (fun _ => HttpOutcome.response 200 [5])
    [("9", [3])] [1, 2, 3] [7] "1.2.3" "9" rfl (by decide)
